import Mathlib

/-!
Shallow embedding of the LibreView API client (`libreview_api.py`) from the
blood-sugar-console repository.

The client is a stateful HTTP wrapper.  We model:
  * JSON values (`Json`), standing for the Python values produced by
    `response.json()`; `Json.null` is Python `None`.
  * Python dynamic operations used by the source (`in` on arbitrary values,
    subscripting, `.get`, truthiness, `str()`), including the dynamic
    `TypeError`/`KeyError`/`AttributeError` they can raise.
  * The HTTP transport as an oracle: a list of scripted outcomes consumed
    one per issued request (timeout / transport error / response with a
    status code and a parsed-or-unparseable body).
  * Every method of the Python class as a function from client state and
    oracle to a result record `R` carrying the outcome (`Except PyErr`),
    the new client state, the remaining oracle, and the log of HTTP
    requests actually sent (with the exact headers used), one `Event`
    per `session.post/get/request` call site in the source.
SHA-256 (the source calls `hashlib.sha256`, an external library) is
implemented from FIPS 180-4 over bytes as `sha256Hex`.
-/

/-- JSON values as returned by `response.json()`; `null` is Python `None`. -/
inductive Json : Type where
  | null : Json
  | bool : Bool → Json
  | num : Int → Json
  | str : String → Json
  | arr : List Json → Json
  | obj : List (String × Json) → Json

/-- Python exceptions the client code can raise: the four
`LibreViewAPIError` subclasses, plus dynamic errors (`KeyError`,
`TypeError`, `AttributeError`) escaping unguarded operations. -/
inductive PyErr : Type where
  | libreAuth : String → PyErr
  | libreTimeout : String → PyErr
  | libreResponse : String → PyErr
  | libreAPI : String → PyErr
  | keyError : String → PyErr
  | typeError : String → PyErr
  | attributeError : String → PyErr

/-- Whether an exception is a subtype of the base class `LibreViewAPIError`. -/
def PyErr.isLibreViewAPIError : PyErr → Bool
  | .libreAuth _ => true
  | .libreTimeout _ => true
  | .libreResponse _ => true
  | .libreAPI _ => true
  | .keyError _ => false
  | .typeError _ => false
  | .attributeError _ => false

/-- Python truthiness of a JSON value (`if data:`). -/
def Json.truthy : Json → Bool
  | .null => false
  | .bool b => b
  | .num n => n != 0
  | .str s => s != ""
  | .arr xs => !xs.isEmpty
  | .obj fs => !fs.isEmpty

/-- Is the value a Python list? (`isinstance(data, list)`). -/
def Json.isArr : Json → Bool
  | .arr _ => true
  | _ => false

/-- Field lookup on an object; `none` on a non-object or a missing key. -/
def jGet : Json → String → Option Json
  | .obj fs, k => (fs.find? (fun p => p.1 == k)).map (fun p => p.2)
  | _, _ => none

mutual
/-- Python `repr` of a JSON value (as interpolated by f-strings for
containers); string escaping is not modelled. -/
def pyRepr : Json → String
  | .null => "None"
  | .bool true => "True"
  | .bool false => "False"
  | .num n => toString n
  | .str s => String.singleton (Char.ofNat 39) ++ s ++ String.singleton (Char.ofNat 39)
  | .arr xs => "[" ++ pyReprList xs ++ "]"
  | .obj fs => "\x7b" ++ pyReprFields fs ++ "\x7d"

/-- Comma-joined `repr`s of the elements of a Python list. -/
def pyReprList : List Json → String
  | [] => ""
  | [x] => pyRepr x
  | x :: xs => pyRepr x ++ ", " ++ pyReprList xs

/-- Comma-joined `repr`s of the items of a Python dict. -/
def pyReprFields : List (String × Json) → String
  | [] => ""
  | [(k, v)] => String.singleton (Char.ofNat 39) ++ k ++ String.singleton (Char.ofNat 39) ++ ": " ++ pyRepr v
  | (k, v) :: fs =>
      String.singleton (Char.ofNat 39) ++ k ++ String.singleton (Char.ofNat 39) ++ ": " ++ pyRepr v
        ++ ", " ++ pyReprFields fs
end

/-- Python `str()` of a JSON value (used by `str(...)` and f-strings). -/
def pyStr : Json → String
  | .str s => s
  | j => pyRepr j

/-- Python `key in value` for a string key: key membership on dicts,
substring test on strings, element membership on lists, and a
`TypeError` on numbers, booleans and `None`. -/
def pyContains (j : Json) (key : String) : Except PyErr Bool :=
  match j with
  | .obj fs => .ok (fs.any (fun p => p.1 == key))
  | .str s => .ok ((s.splitOn key).length != 1)
  | .arr xs => .ok (xs.any (fun x => match x with | .str s => s == key | _ => false))
  | _ => .error (.typeError "argument of type is not iterable")

/-- Python `value[key]` for a string key: dict lookup raising `KeyError`
when absent, `TypeError` on everything else. -/
def pySubscript (j : Json) (key : String) : Except PyErr Json :=
  match j with
  | .obj fs =>
      match fs.find? (fun p => p.1 == key) with
      | some p => .ok p.2
      | none => .error (.keyError key)
  | _ => .error (.typeError "value is not subscriptable by a string")

/-- Python `value.get(key)` (default `None`): defined on dicts only,
`AttributeError` otherwise. -/
def pyGetMethod (j : Json) (key : String) : Except PyErr Json :=
  match j with
  | .obj fs =>
      match fs.find? (fun p => p.1 == key) with
      | some p => .ok p.2
      | none => .ok .null
  | _ => .error (.attributeError "object has no attribute get")

/-- Header dictionaries, as insertion-ordered key/value lists with the
assignment semantics of a Python dict. -/
abbrev Headers : Type := List (String × String)

/-- The `d[k] = v` on a Python dict: overwrite in place if present, else append. -/
def setKV (d : Headers) (k v : String) : Headers :=
  if d.any (fun p => p.1 == k) then
    d.map (fun p => if p.1 == k then (k, v) else p)
  else
    d ++ [(k, v)]

/-- The `d1.update(d2)`: assign every item of `d2` into `d1`, later wins. -/
def dictUpdate (d1 d2 : Headers) : Headers :=
  d2.foldl (fun acc p => setKV acc p.1 p.2) d1

/-- The `d.get(k)`-style lookup used in theorem statements. -/
def dictGet (d : Headers) (k : String) : Option String :=
  (d.find? (fun p => p.1 == k)).map (fun p => p.2)

/-- Client state: credentials, configuration and the two mutable fields
`token` and `account_id` of `LibreViewAPI.__init__`. -/
structure Client : Type where
  email : String
  password : String
  default_version : String
  product : String
  timeout : Nat
  token : Option String
  account_id : Option String

/-- The `self.login_url`. -/
def login_url : String := "https://api.libreview.io/llu/auth/login"

/-- The `self.account_url`. -/
def account_url : String := "https://api-us.libreview.io/account"

/-- URL of the connections listing used by `get_patient_id`. -/
def connections_url : String := "https://api.libreview.io/llu/connections"

/-- The `get_headers(api_version, include_auth, include_account)`: pure
function of the client state.  Python truthiness governs both the
`api_version` fallback and the token / account-id conditionals. -/
def get_headers (c : Client) (api_version : Option String)
    (include_auth : Bool) (include_account : Bool) : Headers :=
  let version : String :=
    match api_version with
    | some v => if v == "" then c.default_version else v
    | none => c.default_version
  let headers : Headers :=
    [("version", version), ("product", c.product), ("Accept", "application/json")]
  let headers : Headers :=
    match c.token with
    | some t => if include_auth && t != "" then setKV headers "Authorization" ("Bearer " ++ t) else headers
    | none => headers
  match c.account_id with
  | some a => if include_account && a != "" then setKV headers "Account-Id" a else headers
  | none => headers

/-!  SHA-256 (FIPS 180-4), modelling `hashlib.sha256(raw_id.encode('utf-8')).hexdigest()`. -/

/-- UTF-8 encoding of a character as its byte values. -/
def utf8EncodeCharNat (c : Char) : List Nat :=
  let n := c.toNat
  if n < 128 then [n]
  else if n < 2048 then [192 + n / 64, 128 + n % 64]
  else if n < 65536 then [224 + n / 4096, 128 + (n / 64) % 64, 128 + n % 64]
  else [240 + n / 262144, 128 + (n / 4096) % 64, 128 + (n / 64) % 64, 128 + n % 64]

/-- UTF-8 bytes of a string (`s.encode('utf-8')`). -/
def utf8Bytes (s : String) : List Nat :=
  s.data.flatMap utf8EncodeCharNat

/-- Right rotation of a 32-bit word. -/
def rotr32 (x n : Nat) : Nat :=
  ((x >>> n) ||| (x <<< (32 - n))) % 4294967296

/-- SHA-256 big sigma 0. -/
def bsig0 (x : Nat) : Nat := rotr32 x 2 ^^^ rotr32 x 13 ^^^ rotr32 x 22

/-- SHA-256 big sigma 1. -/
def bsig1 (x : Nat) : Nat := rotr32 x 6 ^^^ rotr32 x 11 ^^^ rotr32 x 25

/-- SHA-256 small sigma 0. -/
def ssig0 (x : Nat) : Nat := rotr32 x 7 ^^^ rotr32 x 18 ^^^ (x >>> 3)

/-- SHA-256 small sigma 1. -/
def ssig1 (x : Nat) : Nat := rotr32 x 17 ^^^ rotr32 x 19 ^^^ (x >>> 10)

/-- The 64 SHA-256 round constants. -/
def sha256K : List Nat :=
  [1116352408, 1899447441, 3049323471, 3921009573, 961987163,
   1508970993, 2453635748, 2870763221, 3624381080, 310598401,
   607225278, 1426881987, 1925078388, 2162078206, 2614888103,
   3248222580, 3835390401, 4022224774, 264347078, 604807628,
   770255983, 1249150122, 1555081692, 1996064986, 2554220882,
   2821834349, 2952996808, 3210313671, 3336571891, 3584528711,
   113926993, 338241895, 666307205, 773529912, 1294757372,
   1396182291, 1695183700, 1986661051, 2177026350, 2456956037,
   2730485921, 2820302411, 3259730800, 3345764771, 3516065817,
   3600352804, 4094571909, 275423344, 430227734, 506948616,
   659060556, 883997877, 958139571, 1322822218, 1537002063,
   1747873779, 1955562222, 2024104815, 2227730452, 2361852424,
   2428436474, 2756734187, 3204031479, 3329325298]

/-- The SHA-256 initial hash value. -/
def sha256H0 : List Nat :=
  [1779033703, 3144134277, 1013904242, 2773480762,
   1359893119, 2600822924, 528734635, 1541459225]

/-- Big-endian bytes of a value, fixed width. -/
def beBytes : Nat → Nat → List Nat
  | 0, _ => []
  | n + 1, v => beBytes n (v / 256) ++ [v % 256]

/-- SHA-256 padding: append `0x80`, zeros to 56 mod 64, and the 64-bit
big-endian bit length. -/
def sha256Pad (msg : List Nat) : List Nat :=
  let L := msg.length
  msg ++ [128] ++ List.replicate ((119 - L % 64) % 64) 0 ++ beBytes 8 (8 * L)

/-- Group bytes into big-endian 32-bit words. -/
def bytesToWords : List Nat → List Nat
  | b0 :: b1 :: b2 :: b3 :: rest => (((b0 * 256 + b1) * 256 + b2) * 256 + b3) :: bytesToWords rest
  | _ => []

/-- Extend a 16-word block by `n` further schedule words. -/
def extendW (w : List Nat) : Nat → List Nat
  | 0 => w
  | n + 1 =>
    let w := extendW w n
    let i := w.length
    w ++ [(w.getD (i - 16) 0 + ssig0 (w.getD (i - 15) 0) + w.getD (i - 7) 0
            + ssig1 (w.getD (i - 2) 0)) % 4294967296]

/-- One SHA-256 round on the eight-word working state. -/
def sha256Step (st : List Nat) (kw : Nat × Nat) : List Nat :=
  let a := st.getD 0 0
  let b := st.getD 1 0
  let c := st.getD 2 0
  let d := st.getD 3 0
  let e := st.getD 4 0
  let f := st.getD 5 0
  let g := st.getD 6 0
  let h := st.getD 7 0
  let t1 := (h + bsig1 e + ((e &&& f) ^^^ ((e ^^^ 4294967295) &&& g)) + kw.1 + kw.2) % 4294967296
  let t2 := (bsig0 a + ((a &&& b) ^^^ (a &&& c) ^^^ (b &&& c))) % 4294967296
  [(t1 + t2) % 4294967296, a, b, c, (d + t1) % 4294967296, e, f, g]

/-- Compress one 16-word block into the hash state. -/
def sha256Block (h : List Nat) (block : List Nat) : List Nat :=
  let ws := extendW block 48
  let st := (sha256K.zip ws).foldl sha256Step h
  (h.zip st).map (fun p => (p.1 + p.2) % 4294967296)

/-- SHA-256 digest of a byte list, as eight 32-bit words. -/
def sha256WordsOf (msg : List Nat) : List Nat :=
  let ws := bytesToWords (sha256Pad msg)
  (List.range (ws.length / 16)).foldl (fun h i => sha256Block h ((ws.drop (16 * i)).take 16)) sha256H0

/-- A lowercase hexadecimal digit. -/
def hexDigit (n : Nat) : Char :=
  if n < 10 then Char.ofNat (48 + n) else Char.ofNat (87 + n)

/-- Fixed-width lowercase hexadecimal rendering. -/
def natToHex : Nat → Nat → String
  | _, 0 => ""
  | v, n + 1 => natToHex (v / 16) n ++ String.singleton (hexDigit (v % 16))

/-- The `hashlib.sha256(s.encode('utf-8')).hexdigest()`. -/
def sha256Hex (s : String) : String :=
  String.join ((sha256WordsOf (utf8Bytes s)).map (fun w => natToHex w 8))

/-!  The HTTP transport oracle and the client methods. -/

/-- One scripted transport outcome: a timeout, another transport failure,
or a response with a status code and a body (`none` = not JSON). -/
inductive HttpOutcome : Type where
  | timeout : HttpOutcome
  | transportError : String → HttpOutcome
  | response : Nat → Option Json → HttpOutcome

/-- The response object `request()` hands back to its callers. -/
structure HttpResponse : Type where
  status : Nat
  body : Option Json

/-- One HTTP request actually issued, tagged by the call site in the
source: `session.post` in `login`, `session.get` in
`fetch_and_hash_account_id`, `session.request` in `request` (first
attempt and retry).  Each carries the headers sent. -/
inductive Event : Type where
  | loginPost : Headers → Event
  | accountGet : Headers → Event
  | attempt : String → String → Headers → Event

/-- Outcome of running a client method: the result or raised exception,
the client state after the call, the unconsumed oracle, and the log of
issued requests. -/
structure R (α : Type) : Type where
  result : Except PyErr α
  client : Client
  oracle : List HttpOutcome
  events : List Event

/-- Consume the next scripted outcome; an exhausted script behaves as a
transport failure. -/
def popOracle : List HttpOutcome → HttpOutcome × List HttpOutcome
  | [] => (.transportError "connection failed", [])
  | o :: os => (o, os)

/-- Number of `session.request` attempts in an event log. -/
def attemptCount (evs : List Event) : Nat :=
  evs.countP (fun e => match e with | .attempt _ _ _ => true | _ => false)

/-- Number of login POSTs in an event log (one per `login()` call). -/
def loginCount (evs : List Event) : Nat :=
  evs.countP (fun e => match e with | .loginPost _ => true | _ => false)

/-- The `login()`: POST credentials, parse JSON, then check 401 / non-200 /
missing `data`, and store `str(data["data"]["authTicket"]["token"])`. -/
def login (c : Client) (o : List HttpOutcome) : R Unit :=
  let headers := setKV (get_headers c (some c.default_version) false false) "Content-Type" "application/json"
  let p := popOracle o
  let step : Except PyErr Unit × Client :=
    match p.1 with
    | .timeout => (.error (.libreTimeout "Login request timed out."), c)
    | .transportError ex => (.error (.libreAPI ("Unexpected error during login: " ++ ex)), c)
    | .response status body =>
      match body with
      | none => (.error (.libreResponse "Login response was not JSON."), c)
      | some data =>
        if status == 401 then
          (.error (.libreAuth "Invalid credentials."), c)
        else if status != 200 then
          (.error (.libreAPI ("Failed to log in: " ++ pyStr data)), c)
        else
          match pyContains data "data" with
          | .error e => (.error e, c)
          | .ok false => (.error (.libreAPI ("Failed to log in: " ++ pyStr data)), c)
          | .ok true =>
            match pySubscript data "data" with
            | .error e => (.error e, c)
            | .ok d1 =>
              match pySubscript d1 "authTicket" with
              | .error e => (.error e, c)
              | .ok d2 =>
                match pySubscript d2 "token" with
                | .error e => (.error e, c)
                | .ok tok => (.ok (), { c with token := some (pyStr tok) })
  ⟨step.1, step.2, p.2, [.loginPost headers]⟩

/-- The `fetch_and_hash_account_id()`: GET the account endpoint with fixed
version "4.7", then store the SHA-256 hex digest of
`str(data["data"]["user"]["id"])`. -/
def fetch_and_hash_account_id (c : Client) (o : List HttpOutcome) : R Unit :=
  let headers := get_headers c (some "4.7") true false
  let p := popOracle o
  let step : Except PyErr Unit × Client :=
    match p.1 with
    | .timeout => (.error (.libreTimeout "Account ID request timed out."), c)
    | .transportError ex => (.error (.libreAPI ("Unexpected error fetching account id: " ++ ex)), c)
    | .response status body =>
      match body with
      | none => (.error (.libreResponse "Account ID response was not JSON."), c)
      | some data =>
        if status != 200 then
          (.error (.libreAPI ("Failed to get account data: " ++ pyStr data)), c)
        else
          match pyContains data "data" with
          | .error e => (.error e, c)
          | .ok false => (.error (.libreAPI ("Failed to get account data: " ++ pyStr data)), c)
          | .ok true =>
            match pySubscript data "data" with
            | .error e => (.error e, c)
            | .ok d1 =>
              match pySubscript d1 "user" with
              | .error e => (.error e, c)
              | .ok d2 =>
                match pySubscript d2 "id" with
                | .error e => (.error e, c)
                | .ok idv => (.ok (), { c with account_id := some (sha256Hex (pyStr idv)) })
  ⟨step.1, step.2, p.2, [.accountGet headers]⟩

/-- The `login_and_setup()`: `login()` then `fetch_and_hash_account_id()`. -/
def login_and_setup (c : Client) (o : List HttpOutcome) : R Unit :=
  let r1 := login c o
  match r1.result with
  | .error e => ⟨.error e, r1.client, r1.oracle, r1.events⟩
  | .ok _ =>
    let r2 := fetch_and_hash_account_id r1.client r1.oracle
    ⟨r2.result, r2.client, r2.oracle, r1.events ++ r2.events⟩

/-- The `request(method, url, api_version, **kwargs)`: build headers (merging
caller-supplied ones, caller wins), issue the request, and on a 401
re-login via `login_and_setup` and retry once with headers rebuilt by
`get_headers` alone (the popped caller headers are not re-merged). -/
def request (c : Client) (o : List HttpOutcome) (method url : String)
    (api_version : Option String) (extra_headers : Option Headers) : R HttpResponse :=
  let headers0 := get_headers c api_version true true
  let headers :=
    match extra_headers with
    | some hs => dictUpdate headers0 hs
    | none => headers0
  let p := popOracle o
  match p.1 with
  | .timeout =>
      ⟨.error (.libreTimeout ("Request to " ++ url ++ " timed out.")), c, p.2, [.attempt method url headers]⟩
  | .transportError ex =>
      ⟨.error (.libreAPI ("Unexpected error during request: " ++ ex)), c, p.2, [.attempt method url headers]⟩
  | .response status body =>
    if status == 401 then
      let r1 := login_and_setup c p.2
      match r1.result with
      | .error e => ⟨.error e, r1.client, r1.oracle, .attempt method url headers :: r1.events⟩
      | .ok _ =>
        let headers2 := get_headers r1.client api_version true true
        let p2 := popOracle r1.oracle
        let evs := Event.attempt method url headers :: (r1.events ++ [Event.attempt method url headers2])
        match p2.1 with
        | .timeout =>
            ⟨.error (.libreTimeout ("Retry request to " ++ url ++ " timed out.")), r1.client, p2.2, evs⟩
        | .transportError ex =>
            ⟨.error (.libreAPI ("Unexpected error during retry request: " ++ ex)), r1.client, p2.2, evs⟩
        | .response s2 b2 => ⟨.ok ⟨s2, b2⟩, r1.client, p2.2, evs⟩
    else
      ⟨.ok ⟨status, body⟩, c, p.2, [.attempt method url headers]⟩

/-- The `get_patient_id()`: GET the connections listing and return the first
connection's `patientId`, or `None` for the documented soft absences. -/
def get_patient_id (c : Client) (o : List HttpOutcome) : R Json :=
  let r := request c o "GET" connections_url none none
  match r.result with
  | .error e => ⟨.error e, r.client, r.oracle, r.events⟩
  | .ok resp =>
    match resp.body with
    | none => ⟨.error (.libreResponse "Connections response was not JSON."), r.client, r.oracle, r.events⟩
    | some connections =>
      match pyGetMethod connections "data" with
      | .error e => ⟨.error e, r.client, r.oracle, r.events⟩
      | .ok data =>
        if !data.truthy || !data.isArr || (match data with | .arr xs => xs.isEmpty | _ => false) then
          ⟨.ok .null, r.client, r.oracle, r.events⟩
        else
          match data with
          | .arr (x :: _) =>
            match pyContains x "patientId" with
            | .error e => ⟨.error e, r.client, r.oracle, r.events⟩
            | .ok false => ⟨.ok .null, r.client, r.oracle, r.events⟩
            | .ok true =>
              match pyGetMethod x "patientId" with
              | .error e => ⟨.error e, r.client, r.oracle, r.events⟩
              | .ok pid => ⟨.ok pid, r.client, r.oracle, r.events⟩
          | _ => ⟨.ok .null, r.client, r.oracle, r.events⟩

/-- The hard-coded default of `get_graph_data`'s `api_version` parameter. -/
def graph_default_api_version : String := "4.16.0"

/-- The part of `get_graph_data` after a patient id is in hand: GET the
graph endpoint and return the value under `data`. -/
def get_graph_data_fetch (c : Client) (o : List HttpOutcome) (ev0 : List Event)
    (patientId : Json) (api_version : String) : R Json :=
  let url := "https://api.libreview.io/llu/connections/" ++ pyStr patientId ++ "/graph"
  let r := request c o "GET" url (some api_version) none
  match r.result with
  | .error e => ⟨.error e, r.client, r.oracle, ev0 ++ r.events⟩
  | .ok resp =>
    match resp.body with
    | none => ⟨.error (.libreResponse "Graph data response was not JSON."), r.client, r.oracle, ev0 ++ r.events⟩
    | some data =>
      match pyContains data "data" with
      | .error e => ⟨.error e, r.client, r.oracle, ev0 ++ r.events⟩
      | .ok false => ⟨.error (.libreAPI ("No graph data returned: " ++ pyStr data)), r.client, r.oracle, ev0 ++ r.events⟩
      | .ok true =>
        match pySubscript data "data" with
        | .error e => ⟨.error e, r.client, r.oracle, ev0 ++ r.events⟩
        | .ok v => ⟨.ok v, r.client, r.oracle, ev0 ++ r.events⟩

/-- The `get_graph_data(patientId, api_version)` with `Json.null` standing
for an unsupplied `patientId` (the Python `None` default). -/
def get_graph_data (c : Client) (o : List HttpOutcome) (patientId : Json) (api_version : String) : R Json :=
  match patientId with
  | .null =>
    let rp := get_patient_id c o
    match rp.result with
    | .error e => ⟨.error e, rp.client, rp.oracle, rp.events⟩
    | .ok pid =>
      match pid with
      | .null => ⟨.error (.libreAPI "No patientId available to query graph data."), rp.client, rp.oracle, rp.events⟩
      | _ => get_graph_data_fetch rp.client rp.oracle rp.events pid api_version
  | _ => get_graph_data_fetch c o [] patientId api_version

/-- The `__init__`: record credentials and configuration, leave `token` and
`account_id` unset, then run `login_and_setup()`. -/
def LibreViewAPI_init (email password default_version product : String)
    (timeout : Nat) (o : List HttpOutcome) : R Unit :=
  login_and_setup ⟨email, password, default_version, product, timeout, none, none⟩ o

/-- Did a run raise `LibreViewAuthenticationError`? -/
def raisedAuthenticationError {α : Type} (r : R α) : Bool :=
  match r.result with
  | .error (.libreAuth _) => true
  | _ => false

/-- Headers of the last issued `session.request` attempt of a run. -/
def lastAttemptHeaders {α : Type} (r : R α) : Option Headers :=
  match r.events.getLast? with
  | some (.attempt _ _ hs) => some hs
  | _ => none

/-- Headers of the first issued `session.request` attempt of a run. -/
def firstAttemptHeaders {α : Type} (r : R α) : Option Headers :=
  match r.events.head? with
  | some (.attempt _ _ hs) => some hs
  | _ => none

/-- A demonstration client with both session fields populated. -/
def cDemo : Client :=
  ⟨"user@example.com", "pw", "4.16.0", "llu.android", 10, some "TOK", some "HASH"⟩

/-- A demonstration client configured with default api version "9.9". -/
def cDemo9 : Client :=
  ⟨"user@example.com", "pw", "9.9", "llu.android", 10, some "TOK", some "HASH"⟩

/-- A successful login response body. -/
def loginOkBody : Json :=
  Json.obj [("data", Json.obj [("authTicket", Json.obj [("token", Json.str "T2")])])]

/-- A successful account response body with user id "12345". -/
def accountOkBody : Json :=
  Json.obj [("data", Json.obj [("user", Json.obj [("id", Json.str "12345")])])]

/-- The headers built at the top of `request` (caller extras merged in,
caller values winning via dict update). -/
def requestHeaders (c : Client) (av : Option String) (ex : Option Headers) : Headers :=
  match ex with
  | some hs => dictUpdate (get_headers c av true true) hs
  | none => get_headers c av true true

/-- Oracle tail for the C1 witness: successful re-login, account fetch,
and a 200 retry response. -/
def c1rest : List HttpOutcome :=
  [HttpOutcome.response 200 (some loginOkBody),
   HttpOutcome.response 200 (some accountOkBody),
   HttpOutcome.response 200 (some (Json.obj [("data", Json.num 1)]))]

/-- Oracle for the C1 witness: a 401 followed by `c1rest`. -/
def c1oracle : List HttpOutcome := HttpOutcome.response 401 (some (Json.obj [])) :: c1rest

/-- Oracle for the C1 counterexample: a 401 whose re-login then times out. -/
def c1cexOracle : List HttpOutcome :=
  [HttpOutcome.response 401 (some (Json.obj [])), HttpOutcome.timeout]

/-- Oracle for the C6 witness: a successful login then an account-fetch
timeout. -/
def c6oracle : List HttpOutcome :=
  [HttpOutcome.response 200 (some loginOkBody), HttpOutcome.timeout]

/-!  Helper lemmas about the embedded methods. -/

/-- The `login` always issues exactly its one POST, with fixed headers. -/
theorem login_events_eq (c : Client) (o : List HttpOutcome) :
    (login c o).events
      = [Event.loginPost (setKV (get_headers c (some c.default_version) false false)
          "Content-Type" "application/json")] := rfl

/-- The `fetch_and_hash_account_id` always issues exactly its one GET. -/
theorem fetch_events_eq (c : Client) (o : List HttpOutcome) :
    (fetch_and_hash_account_id c o).events
      = [Event.accountGet (get_headers c (some "4.7") true false)] := rfl

/-- The `login_and_setup` performs no `session.request` attempt of its own. -/
theorem login_and_setup_attemptCount (c : Client) (o : List HttpOutcome) :
    attemptCount (login_and_setup c o).events = 0 := by
  unfold login_and_setup
  dsimp only
  split <;>
    simp [login_events_eq, fetch_events_eq, attemptCount, List.countP_append, List.countP_cons]

/-- The `login_and_setup` performs exactly one login POST. -/
theorem login_and_setup_loginCount (c : Client) (o : List HttpOutcome) :
    loginCount (login_and_setup c o).events = 1 := by
  unfold login_and_setup
  dsimp only
  split <;>
    simp [login_events_eq, fetch_events_eq, loginCount, List.countP_append, List.countP_cons]

/-- A present key relates `jGet` to the Python `in`, `[]` and `.get`
operations. -/
theorem jGet_some_spec (j : Json) (k : String) (v : Json) (h : jGet j k = some v) :
    pyContains j k = Except.ok true ∧ pySubscript j k = Except.ok v
      ∧ pyGetMethod j k = Except.ok v := by
  cases j <;> simp [jGet] at h
  rename_i fs
  obtain ⟨a, hf⟩ := h
  have hpred := List.find?_some hf
  have hmem := List.mem_of_find?_eq_some hf
  have hany : fs.any (fun p => p.1 == k) = true := List.any_eq_true.mpr ⟨(a, v), hmem, hpred⟩
  exact ⟨by simp [pyContains, hany], by simp [pySubscript, hf], by simp [pyGetMethod, hf]⟩

/-- A missing key on an object relates `jGet` to `in` and `.get`. -/
theorem jGet_none_spec (fs : List (String × Json)) (k : String)
    (h : jGet (Json.obj fs) k = none) :
    pyContains (Json.obj fs) k = Except.ok false
      ∧ pyGetMethod (Json.obj fs) k = Except.ok Json.null := by
  have hf : List.find? (fun p => p.1 == k) fs = none := by
    cases hf : List.find? (fun p => p.1 == k) fs with
    | none => rfl
    | some p =>
      have hv : jGet (Json.obj fs) k = some p.2 := by simp [jGet, hf]
      rw [h] at hv
      cases hv
  have hany : fs.any (fun p => p.1 == k) = false := by
    rw [List.any_eq_false]
    intro x hx
    exact List.find?_eq_none.mp hf x hx
  exact ⟨by simp [pyContains, hany], by simp [pyGetMethod, hf]⟩

/-- Lookups on the result of `get_headers`, fully characterized. -/
theorem get_headers_lookup (c : Client) (av : Option String) (ia ac : Bool) :
    dictGet (get_headers c av ia ac) "version"
        = some (match av with
                | some v => if v == "" then c.default_version else v
                | none => c.default_version) ∧
    dictGet (get_headers c av ia ac) "Authorization"
        = (match c.token with
           | some t => if ia && t != "" then some ("Bearer " ++ t) else none
           | none => none) ∧
    dictGet (get_headers c av ia ac) "Account-Id"
        = (match c.account_id with
           | some a => if ac && a != "" then some a else none
           | none => none) := by
  refine ⟨?_, ?_, ?_⟩ <;>
    cases av <;> cases htok : c.token <;> cases hacc : c.account_id <;>
      simp only [get_headers, htok, hacc] <;> first
      | rfl
      | (split_ifs <;> rfl)

/-- The `login` never changes `account_id` (it only assigns `token`). -/
theorem login_account_id_eq (c : Client) (o : List HttpOutcome) :
    (login c o).client.account_id = c.account_id := by
  unfold login
  dsimp only
  repeat' split
  all_goals rfl

/-- After `login`, either a token is stored or an exception was raised. -/
theorem login_token_or_error (c : Client) (o : List HttpOutcome) :
    (∃ t, (login c o).client.token = some t) ∨ (∃ e, (login c o).result = Except.error e) := by
  unfold login
  dsimp only
  repeat' split
  all_goals first
  | exact Or.inl ⟨_, rfl⟩
  | exact Or.inr ⟨_, rfl⟩

/-- The `fetch_and_hash_account_id` never changes `token`. -/
theorem fetch_token_eq (c : Client) (o : List HttpOutcome) :
    (fetch_and_hash_account_id c o).client.token = c.token := by
  unfold fetch_and_hash_account_id
  dsimp only
  repeat' split
  all_goals rfl

/-- The `fetch_and_hash_account_id` either leaves the client untouched or
succeeds (it assigns `account_id` only on the success path). -/
theorem fetch_client_or_ok (c : Client) (o : List HttpOutcome) :
    (fetch_and_hash_account_id c o).client = c
      ∨ (fetch_and_hash_account_id c o).result = Except.ok () := by
  unfold fetch_and_hash_account_id
  dsimp only
  repeat' split
  all_goals first
  | exact Or.inl rfl
  | exact Or.inr rfl

/-- The first request `request` issues always carries the headers built
from `get_headers` (no caller-supplied extras here). -/
theorem request_events_head (c : Client) (o : List HttpOutcome) (m u : String) (av : Option String) :
    (request c o m u av none).events.head?
      = some (Event.attempt m u (get_headers c av true true)) := by
  unfold request
  dsimp only
  repeat' split
  all_goals rfl

/-- Counting attempts past a leading attempt event. -/
theorem attemptCount_cons_attempt (m u : String) (h : Headers) (evs : List Event) :
    attemptCount (Event.attempt m u h :: evs) = attemptCount evs + 1 := by
  simp [attemptCount, List.countP_cons]

/-- Attempt counts add over appended logs. -/
theorem attemptCount_append (a b : List Event) :
    attemptCount (a ++ b) = attemptCount a + attemptCount b := by
  simp [attemptCount, List.countP_append]

/-- A leading attempt event contributes no login POST. -/
theorem loginCount_cons_attempt (m u : String) (h : Headers) (evs : List Event) :
    loginCount (Event.attempt m u h :: evs) = loginCount evs := by
  simp [loginCount, List.countP_cons]

/-- Login counts add over appended logs. -/
theorem loginCount_append (a b : List Event) :
    loginCount (a ++ b) = loginCount a + loginCount b := by
  simp [loginCount, List.countP_append]

/-- The `request` on a leading 401 whose re-login fails: the exception
propagates and no retry is issued. -/
theorem request_401_relogin_error (c : Client) (rest : List HttpOutcome) (m u : String)
    (av : Option String) (ex : Option Headers) (b : Option Json) (e : PyErr)
    (hres : (login_and_setup c rest).result = Except.error e) :
    request c (HttpOutcome.response 401 b :: rest) m u av ex
      = ⟨Except.error e, (login_and_setup c rest).client, (login_and_setup c rest).oracle,
         Event.attempt m u (requestHeaders c av ex) :: (login_and_setup c rest).events⟩ := by
  unfold request
  simp only [popOracle]
  rw [hres]
  rfl

/-- The `request` on a leading 401 whose re-login succeeds: one retry is
issued with headers rebuilt by `get_headers` alone. -/
theorem request_401_relogin_ok (c : Client) (rest : List HttpOutcome) (m u : String)
    (av : Option String) (ex : Option Headers) (b : Option Json)
    (hres : (login_and_setup c rest).result = Except.ok ()) :
    (request c (HttpOutcome.response 401 b :: rest) m u av ex).events
      = Event.attempt m u (requestHeaders c av ex)
          :: ((login_and_setup c rest).events
            ++ [Event.attempt m u (get_headers (login_and_setup c rest).client av true true)]) ∧
    ∀ s2 b2 rest2, (login_and_setup c rest).oracle = HttpOutcome.response s2 b2 :: rest2 →
      (request c (HttpOutcome.response 401 b :: rest) m u av ex).result = Except.ok ⟨s2, b2⟩ := by
  rcases ho2 : (login_and_setup c rest).oracle with _ | ⟨hd2, tl2⟩
  · constructor
    · unfold request
      simp only [popOracle]
      rw [hres, ho2]
      rfl
    · intro s2 b2 rest2 hcontr
      cases hcontr
  · constructor
    · unfold request
      simp only [popOracle]
      rw [hres, ho2]
      cases hd2 <;> rfl
    · intro s2 b2 rest2 hoc
      injection hoc with h1 h2
      subst h1
      subst h2
      unfold request
      simp only [popOracle]
      rw [hres, ho2]
      rfl

/-- The `request` whose first outcome is a non-401 response returns it with a
single attempt. -/
theorem request_non401 (c : Client) (rest : List HttpOutcome) (m u : String)
    (av : Option String) (ex : Option Headers) (st : Nat) (b : Option Json)
    (hst : st ≠ 401) :
    request c (HttpOutcome.response st b :: rest) m u av ex
      = ⟨Except.ok ⟨st, b⟩, c, rest, [Event.attempt m u (requestHeaders c av ex)]⟩ := by
  have hbeq : (st == 401) = false := beq_eq_false_iff_ne.mpr hst
  unfold request
  simp only [popOracle, hbeq, Bool.false_eq_true, if_false]
  rfl

/-- The `request` on an exhausted transport script: one attempt, wrapped error. -/
theorem request_nil (c : Client) (m u : String) (av : Option String) (ex : Option Headers) :
    request c [] m u av ex
      = ⟨Except.error (PyErr.libreAPI ("Unexpected error during request: " ++ "connection failed")),
         c, [], [Event.attempt m u (requestHeaders c av ex)]⟩ := rfl

/-- The `request` whose first outcome is a timeout: one attempt, `TimeoutError`. -/
theorem request_timeout_head (c : Client) (rest : List HttpOutcome) (m u : String)
    (av : Option String) (ex : Option Headers) :
    request c (HttpOutcome.timeout :: rest) m u av ex
      = ⟨Except.error (PyErr.libreTimeout ("Request to " ++ u ++ " timed out.")),
         c, rest, [Event.attempt m u (requestHeaders c av ex)]⟩ := rfl

/-- The `request` whose first outcome is a transport failure: one attempt,
wrapped `APIError`. -/
theorem request_transport_head (c : Client) (rest : List HttpOutcome) (m u : String)
    (av : Option String) (ex : Option Headers) (s : String) :
    request c (HttpOutcome.transportError s :: rest) m u av ex
      = ⟨Except.error (PyErr.libreAPI ("Unexpected error during request: " ++ s)),
         c, rest, [Event.attempt m u (requestHeaders c av ex)]⟩ := rfl

/-- The `get_graph_data_fetch` logs exactly its inherited events followed by
those of its one `request` call. -/
theorem get_graph_data_fetch_events (c : Client) (o : List HttpOutcome) (ev0 : List Event)
    (pid : Json) (av : String) :
    (get_graph_data_fetch c o ev0 pid av).events
      = ev0 ++ (request c o "GET"
          ("https://api.libreview.io/llu/connections/" ++ pyStr pid ++ "/graph")
          (some av) none).events := by
  unfold get_graph_data_fetch
  dsimp only
  repeat' split
  all_goals rfl

/-!  The claims. -/

/-- C1 (amended): `request` never makes more than two attempts or more
than one re-login; when the first response is a 401 it performs
`login_and_setup` exactly once, and when that re-login succeeds it
re-issues the request exactly once and returns the retry's response
as-is (whether 200 or a second 401); when the re-login fails, its
exception propagates and the request is not re-issued. -/
theorem request_retries_exactly_once (c : Client) (o : List HttpOutcome) (m u : String)
    (av : Option String) (ex : Option Headers) :
    attemptCount (request c o m u av ex).events ≤ 2 ∧
    loginCount (request c o m u av ex).events ≤ 1 ∧
    ∀ b rest, o = HttpOutcome.response 401 b :: rest →
      loginCount (request c o m u av ex).events = 1 ∧
      ((login_and_setup c rest).result = Except.ok () →
        attemptCount (request c o m u av ex).events = 2 ∧
        ∀ s2 b2 rest2, (login_and_setup c rest).oracle = HttpOutcome.response s2 b2 :: rest2 →
          (request c o m u av ex).result = Except.ok ⟨s2, b2⟩) := by
  cases o with
  | nil =>
    refine ⟨?_, ?_, ?_⟩
    · rw [request_nil]; simp [attemptCount]
    · rw [request_nil]; simp [loginCount]
    · intro b rest h; cases h
  | cons hd tl =>
    cases hd with
    | timeout =>
      refine ⟨?_, ?_, ?_⟩
      · rw [request_timeout_head]; simp [attemptCount]
      · rw [request_timeout_head]; simp [loginCount]
      · intro b rest h; cases h
    | transportError s =>
      refine ⟨?_, ?_, ?_⟩
      · rw [request_transport_head]; simp [attemptCount]
      · rw [request_transport_head]; simp [loginCount]
      · intro b rest h; cases h
    | response st b0 =>
      by_cases h401 : st = 401
      · subst h401
        rcases hres : (login_and_setup c tl).result with e | x
        · have heq := request_401_relogin_error c tl m u av ex b0 e hres
          refine ⟨?_, ?_, ?_⟩
          · rw [heq]
            dsimp only
            rw [attemptCount_cons_attempt, login_and_setup_attemptCount]
            omega
          · rw [heq]
            dsimp only
            rw [loginCount_cons_attempt, login_and_setup_loginCount]
          · intro b rest h
            injection h with h1 h2
            subst h2
            refine ⟨?_, ?_⟩
            · rw [heq]
              dsimp only
              rw [loginCount_cons_attempt, login_and_setup_loginCount]
            · intro hok
              rw [hok] at hres
              cases hres
        · cases x
          obtain ⟨hev, hresEq⟩ := request_401_relogin_ok c tl m u av ex b0 hres
          refine ⟨?_, ?_, ?_⟩
          · rw [hev, attemptCount_cons_attempt, attemptCount_append, login_and_setup_attemptCount]
            simp [attemptCount]
          · rw [hev, loginCount_cons_attempt, loginCount_append, login_and_setup_loginCount]
            simp [loginCount]
          · intro b rest h
            injection h with h1 h2
            subst h2
            refine ⟨?_, fun _ => ⟨?_, hresEq⟩⟩
            · rw [hev, loginCount_cons_attempt, loginCount_append, login_and_setup_loginCount]
              simp [loginCount]
            · rw [hev, attemptCount_cons_attempt, attemptCount_append, login_and_setup_attemptCount]
              simp [attemptCount]
      · have heq := request_non401 c tl m u av ex st b0 h401
        refine ⟨?_, ?_, ?_⟩
        · rw [heq]; simp [attemptCount]
        · rw [heq]; simp [loginCount]
        · intro b rest h
          injection h with h1 h2
          injection h1 with h1a h1b
          exact absurd h1a h401

/-- C1 counterexample: the first response is a 401, but the re-login
times out, so the request is never re-issued (one attempt, not the
claimed exactly-one retry) and the timeout propagates. -/
theorem request_no_retry_on_failed_relogin :
    c1cexOracle.head? = some (HttpOutcome.response 401 (some (Json.obj []))) ∧
    attemptCount (request cDemo c1cexOracle "GET" "https://x" none none).events = 1 ∧
    (request cDemo c1cexOracle "GET" "https://x" none none).result
      = Except.error (PyErr.libreTimeout "Login request timed out.") :=
  ⟨rfl, rfl, rfl⟩

/-- C1 witness: a 401 followed by a successful re-login and a 200 retry
yields the 200 response. -/
theorem request_retries_exactly_once_witness :
    (request cDemo c1oracle "GET" "https://x" none none).result
      = Except.ok ⟨200, some (Json.obj [("data", Json.num 1)])⟩ := by
  have h := ((request_retries_exactly_once cDemo c1oracle "GET" "https://x" none none).2.2
      (some (Json.obj [])) c1rest rfl).2 (by rfl)
  exact h.2 200 (some (Json.obj [("data", Json.num 1)])) [] (by rfl)

/-- C2 (amended): a 401 login response carrying a JSON body raises
`AuthenticationError` and leaves the token unchanged.  (A 401 whose body
is not JSON instead raises `ResponseError`, because `login` parses the
body before checking the status code; the token is unchanged there too.) -/
theorem login_401_raises_auth_error (c : Client) (o : List HttpOutcome) (b : Json)
    (rest : List HttpOutcome) (h : o = HttpOutcome.response 401 (some b) :: rest) :
    (login c o).result = Except.error (PyErr.libreAuth "Invalid credentials.") ∧
    (login c o).client.token = c.token := by
  subst h
  exact ⟨rfl, rfl⟩

/-- C2 counterexample: a 401 login response whose body is not JSON raises
`ResponseError`, not `AuthenticationError` (the body is parsed before
the status check); the token is still unchanged. -/
theorem login_401_nonjson_raises_response_error :
    (login cDemo [HttpOutcome.response 401 none]).result
      = Except.error (PyErr.libreResponse "Login response was not JSON.") ∧
    raisedAuthenticationError (login cDemo [HttpOutcome.response 401 none]) = false ∧
    (login cDemo [HttpOutcome.response 401 none]).client.token = cDemo.token :=
  ⟨rfl, rfl, rfl⟩

/-- C2 witness: a concrete 401 JSON response raises `AuthenticationError`
and leaves the token unchanged. -/
theorem login_401_raises_auth_error_witness :
    (login cDemo [HttpOutcome.response 401 (some (Json.obj []))]).result
      = Except.error (PyErr.libreAuth "Invalid credentials.") ∧
    (login cDemo [HttpOutcome.response 401 (some (Json.obj []))]).client.token = cDemo.token :=
  login_401_raises_auth_error cDemo _ (Json.obj []) [] rfl

/-- C3 (amended): on a first-response 401 with a successful re-login, the
first attempt is sent with `get_headers` output merged with the
caller-supplied headers (caller values winning), but the retry is sent
with the rebuilt `get_headers` output alone — the caller-supplied
headers are not re-merged (they were popped from `kwargs`). -/
theorem request_retry_rebuilds_headers_only (c : Client) (o : List HttpOutcome) (m u : String)
    (av : Option String) (hs : Headers) (b : Option Json) (rest : List HttpOutcome)
    (h : o = HttpOutcome.response 401 b :: rest)
    (hok : (login_and_setup c rest).result = Except.ok ()) :
    (request c o m u av (some hs)).events
      = Event.attempt m u (dictUpdate (get_headers c av true true) hs)
          :: ((login_and_setup c rest).events
            ++ [Event.attempt m u (get_headers (login_and_setup c rest).client av true true)]) := by
  subst h
  exact (request_401_relogin_ok c rest m u av (some hs) b hok).1

/-- C3 counterexample: with caller extra header `X-Extra`, the first
attempt carries it but the 401-triggered retry does not — the retry is
not the same request. -/
theorem request_retry_drops_extra_headers :
    (firstAttemptHeaders (request cDemo c1oracle "GET" "https://x" none (some [("X-Extra", "1")]))).map
        (fun hs => dictGet hs "X-Extra") = some (some "1") ∧
    (lastAttemptHeaders (request cDemo c1oracle "GET" "https://x" none (some [("X-Extra", "1")]))).map
        (fun hs => dictGet hs "X-Extra") = some none := by
  constructor
  · rfl
  · rfl

/-- C3 witness: the amended statement at a concrete client, oracle and
extra-header dictionary. -/
theorem request_retry_rebuilds_headers_only_witness :
    (request cDemo c1oracle "GET" "https://x" none (some [("X-Extra", "1")])).events
      = Event.attempt "GET" "https://x" (dictUpdate (get_headers cDemo none true true) [("X-Extra", "1")])
          :: ((login_and_setup cDemo c1rest).events
            ++ [Event.attempt "GET" "https://x"
                  (get_headers (login_and_setup cDemo c1rest).client none true true)]) :=
  request_retry_rebuilds_headers_only cDemo c1oracle "GET" "https://x" none
    [("X-Extra", "1")] (some (Json.obj [])) c1rest rfl rfl

/-- C4: `fetch_and_hash_account_id` always sends its one GET with api
version "4.7" (whatever the configured default), with a bearer
`Authorization` header (given a non-empty token, as every call site
guarantees) and no `Account-Id` header; on a 200 JSON body carrying
`data.user.id` it stores the hex SHA-256 digest of the id's string form
as the account identifier. -/
theorem fetch_account_fixed_version_and_hash (c : Client) (o : List HttpOutcome) (t : String)
    (htok : c.token = some t) (hne : t ≠ "") :
    (fetch_and_hash_account_id c o).events
      = [Event.accountGet (get_headers c (some "4.7") true false)] ∧
    dictGet (get_headers c (some "4.7") true false) "version" = some "4.7" ∧
    dictGet (get_headers c (some "4.7") true false) "Authorization" = some ("Bearer " ++ t) ∧
    dictGet (get_headers c (some "4.7") true false) "Account-Id" = none ∧
    ∀ body rest d u idv, o = HttpOutcome.response 200 (some body) :: rest →
      jGet body "data" = some d → jGet d "user" = some u → jGet u "id" = some idv →
      (fetch_and_hash_account_id c o).result = Except.ok () ∧
      (fetch_and_hash_account_id c o).client.account_id = some (sha256Hex (pyStr idv)) := by
  obtain ⟨hv, hauth, haccid⟩ := get_headers_lookup c (some "4.7") true false
  refine ⟨fetch_events_eq c o, ?_, ?_, ?_, ?_⟩
  · simpa using hv
  · rw [hauth, htok]
    simp [hne]
  · rw [haccid]
    cases c.account_id <;> rfl
  · intro body rest d u idv ho h1 h2 h3
    subst ho
    obtain ⟨hc1, hs1, -⟩ := jGet_some_spec _ _ _ h1
    obtain ⟨-, hs2, -⟩ := jGet_some_spec _ _ _ h2
    obtain ⟨-, hs3, -⟩ := jGet_some_spec _ _ _ h3
    constructor <;>
      simp [fetch_and_hash_account_id, popOracle, hc1, hs1, hs2, hs3]

set_option maxRecDepth 400000 in
/-- C4 witness: account id "12345" is stored as the well-known SHA-256
hex digest of the string "12345". -/
theorem fetch_account_fixed_version_and_hash_witness :
    ((fetch_and_hash_account_id cDemo [HttpOutcome.response 200 (some accountOkBody)]).result
        = Except.ok () ∧
     (fetch_and_hash_account_id cDemo [HttpOutcome.response 200 (some accountOkBody)]).client.account_id
        = some (sha256Hex (pyStr (Json.str "12345")))) ∧
    sha256Hex "12345" = "5994471abb01112afcc18159f6cc74b4f511b99806da59b3caf5a9c173cacfc5" :=
  ⟨(fetch_account_fixed_version_and_hash cDemo [HttpOutcome.response 200 (some accountOkBody)]
      "TOK" rfl (by decide)).2.2.2.2 accountOkBody []
      (Json.obj [("user", Json.obj [("id", Json.str "12345")])])
      (Json.obj [("id", Json.str "12345")]) (Json.str "12345") rfl rfl rfl rfl,
   by rfl⟩

/-- C5: `get_headers` (a pure function of the client — in this embedding
it returns only the header dictionary and touches no state) includes
`Authorization: Bearer <token>` exactly when auth is requested and a
(non-empty, following Python truthiness) token is present, and
`Account-Id: <hash>` exactly when requested and a (non-empty) hash is
present; with no token or no hash set the respective header is always
absent, whatever the include flags. -/
theorem get_headers_auth_account_conditionals (c : Client) (av : Option String) (ia ac : Bool) :
    dictGet (get_headers c av ia ac) "Authorization"
      = (match c.token with
         | some t => if ia && t != "" then some ("Bearer " ++ t) else none
         | none => none) ∧
    dictGet (get_headers c av ia ac) "Account-Id"
      = (match c.account_id with
         | some a => if ac && a != "" then some a else none
         | none => none) :=
  ⟨(get_headers_lookup c av ia ac).2.1, (get_headers_lookup c av ia ac).2.2⟩

/-- C6: when `login` succeeds and the subsequent
`fetch_and_hash_account_id` raises inside `login_and_setup`, the
exception propagates unchanged, the token stored by the successful
login stays in place, and `account_id` keeps its previous value. -/
theorem login_and_setup_partial_failure_keeps_token (c : Client) (o : List HttpOutcome) (e : PyErr)
    (hok : (login c o).result = Except.ok ())
    (herr : (fetch_and_hash_account_id (login c o).client (login c o).oracle).result
      = Except.error e) :
    (login_and_setup c o).result = Except.error e ∧
    (∃ t, (login c o).client.token = some t ∧ (login_and_setup c o).client.token = some t) ∧
    (login_and_setup c o).client.account_id = c.account_id := by
  have hls : login_and_setup c o
      = ⟨(fetch_and_hash_account_id (login c o).client (login c o).oracle).result,
         (fetch_and_hash_account_id (login c o).client (login c o).oracle).client,
         (fetch_and_hash_account_id (login c o).client (login c o).oracle).oracle,
         (login c o).events ++ (fetch_and_hash_account_id (login c o).client (login c o).oracle).events⟩ := by
    unfold login_and_setup
    dsimp only
    rw [hok]
  rw [hls]
  dsimp only
  refine ⟨herr, ?_, ?_⟩
  · obtain ⟨t, ht⟩ | ⟨e2, he2⟩ := login_token_or_error c o
    · exact ⟨t, ht, by rw [fetch_token_eq, ht]⟩
    · rw [hok] at he2
      cases he2
  · rcases fetch_client_or_ok (login c o).client (login c o).oracle with hcl | hr
    · rw [hcl, login_account_id_eq]
    · rw [hr] at herr
      cases herr

/-- C6 witness: with a successful login and a timed-out account fetch,
the timeout propagates, the fresh token stays, `account_id` is as
before. -/
theorem login_and_setup_partial_failure_keeps_token_witness :
    (login_and_setup cDemo c6oracle).result
      = Except.error (PyErr.libreTimeout "Account ID request timed out.") ∧
    (∃ t, (login cDemo c6oracle).client.token = some t ∧
      (login_and_setup cDemo c6oracle).client.token = some t) ∧
    (login_and_setup cDemo c6oracle).client.account_id = cDemo.account_id :=
  login_and_setup_partial_failure_keeps_token cDemo c6oracle _ rfl rfl

/-- C7 (amended): `get_graph_data` called without an explicit
`api_version` uses the hard-coded parameter default "4.16.0" for the
graph GET — not the client's configured `default_version` (the two only
coincide when the client keeps the constructor's own default). -/
theorem get_graph_data_default_version_literal (c : Client) (o : List HttpOutcome) (p : String) :
    graph_default_api_version = "4.16.0" ∧
    (get_graph_data c o (Json.str p) graph_default_api_version).events.head?
      = some (Event.attempt "GET" ("https://api.libreview.io/llu/connections/" ++ p ++ "/graph")
          (get_headers c (some "4.16.0") true true)) ∧
    dictGet (get_headers c (some "4.16.0") true true) "version" = some "4.16.0" := by
  refine ⟨rfl, ?_, ?_⟩
  · have h1 : get_graph_data c o (Json.str p) graph_default_api_version
        = get_graph_data_fetch c o [] (Json.str p) graph_default_api_version := rfl
    rw [h1, get_graph_data_fetch_events]
    simp only [pyStr, List.nil_append]
    exact request_events_head c o "GET" _ (some graph_default_api_version)
  · simpa using (get_headers_lookup c (some "4.16.0") true true).1

/-- C7 counterexample: a client configured with default version "9.9"
still sends the graph GET with version "4.16.0" when `get_graph_data`
is called without an api version argument. -/
theorem get_graph_data_ignores_client_default_version :
    cDemo9.default_version = "9.9" ∧
    firstAttemptHeaders (get_graph_data cDemo9
        [HttpOutcome.response 200 (some (Json.obj [("data", Json.num 1)]))]
        (Json.str "P") graph_default_api_version)
      = some (get_headers cDemo9 (some "4.16.0") true true) ∧
    dictGet (get_headers cDemo9 (some "4.16.0") true true) "version" = some "4.16.0" ∧
    dictGet (get_headers cDemo9 (some "4.16.0") true true) "version"
      ≠ some cDemo9.default_version := by
  refine ⟨rfl, rfl, rfl, ?_⟩
  decide

/-- C8 (amended): `get_graph_data` raises `APIError` when no patient id
is supplied and `get_patient_id` resolves to `None`; on a response whose
JSON body is an object without a top-level "data" key it raises
`APIError` with the offending body rendered into the message — and more
generally, whenever the body fails the Python `"data" in body` test (an
object without the key, a string without the substring, an array
without the element), that same `APIError` is raised; with a "data" key
it returns the value underneath unmodified.  (Only a number, boolean or
null body escapes with a `TypeError`, since `in` is not defined there.) -/
theorem get_graph_data_error_paths (c : Client) (o : List HttpOutcome) (p av : String) :
    ((get_patient_id c o).result = Except.ok Json.null →
      (get_graph_data c o Json.null av).result
        = Except.error (PyErr.libreAPI "No patientId available to query graph data.")) ∧
    (∀ resp, (request c o "GET" ("https://api.libreview.io/llu/connections/" ++ p ++ "/graph")
        (some av) none).result = Except.ok resp →
      ∀ fs, resp.body = some (Json.obj fs) →
        ((jGet (Json.obj fs) "data" = none →
          (get_graph_data c o (Json.str p) av).result
            = Except.error (PyErr.libreAPI ("No graph data returned: " ++ pyStr (Json.obj fs)))) ∧
         ∀ v, jGet (Json.obj fs) "data" = some v →
          (get_graph_data c o (Json.str p) av).result = Except.ok v)) ∧
    (∀ resp, (request c o "GET" ("https://api.libreview.io/llu/connections/" ++ p ++ "/graph")
        (some av) none).result = Except.ok resp →
      ∀ body, resp.body = some body → pyContains body "data" = Except.ok false →
        (get_graph_data c o (Json.str p) av).result
          = Except.error (PyErr.libreAPI ("No graph data returned: " ++ pyStr body))) := by
  have hfetch : get_graph_data c o (Json.str p) av
      = get_graph_data_fetch c o [] (Json.str p) av := rfl
  refine ⟨?_, ?_, ?_⟩
  · intro hpid
    unfold get_graph_data
    dsimp only
    rw [hpid]
  · intro resp hreq fs hbody
    constructor
    · intro hnone
      obtain ⟨hcont, -⟩ := jGet_none_spec fs "data" hnone
      rw [hfetch]
      unfold get_graph_data_fetch
      simp only [pyStr]
      rw [hreq]
      dsimp only
      rw [hbody]
      dsimp only
      rw [hcont]
    · intro v hv
      obtain ⟨hcont, hsub, -⟩ := jGet_some_spec _ _ _ hv
      rw [hfetch]
      unfold get_graph_data_fetch
      simp only [pyStr]
      rw [hreq]
      dsimp only
      rw [hbody]
      dsimp only
      rw [hcont]
      dsimp only
      rw [hsub]
  · intro resp hreq body hbody hcont
    rw [hfetch]
    unfold get_graph_data_fetch
    rw [show pyStr (Json.str p) = p from rfl]
    dsimp only
    rw [hreq]
    dsimp only
    rw [hbody]
    dsimp only
    rw [hcont]

/-- C8 counterexample: a 200 response whose JSON body is the number 5
(so it lacks a top-level "data" key) makes `get_graph_data` escape with
a bare `TypeError` — not the claimed `APIError`. -/
theorem get_graph_data_nonobject_body_typeerror :
    (get_graph_data cDemo [HttpOutcome.response 200 (some (Json.num 5))]
        (Json.str "P") "4.16.0").result
      = Except.error (PyErr.typeError "argument of type is not iterable") ∧
    PyErr.isLibreViewAPIError (PyErr.typeError "argument of type is not iterable") = false :=
  ⟨rfl, rfl⟩

/-- C8 witness: the missing-patient-id path, the object-body
missing-"data" path, and the array-body missing-"data" path (an array
lacks "data" under Python's `in` yet still gets the `APIError`), all at
concrete inputs. -/
theorem get_graph_data_error_paths_witness :
    (get_graph_data cDemo [HttpOutcome.response 200 (some (Json.obj [("data", Json.arr [])]))]
        Json.null "4.16.0").result
      = Except.error (PyErr.libreAPI "No patientId available to query graph data.") ∧
    (get_graph_data cDemo [HttpOutcome.response 200 (some (Json.obj []))]
        (Json.str "P") "4.16.0").result
      = Except.error (PyErr.libreAPI ("No graph data returned: " ++ pyStr (Json.obj []))) ∧
    (get_graph_data cDemo [HttpOutcome.response 200 (some (Json.arr [Json.num 1]))]
        (Json.str "P") "4.16.0").result
      = Except.error (PyErr.libreAPI ("No graph data returned: " ++ pyStr (Json.arr [Json.num 1]))) :=
  ⟨(get_graph_data_error_paths cDemo
      [HttpOutcome.response 200 (some (Json.obj [("data", Json.arr [])]))] "P" "4.16.0").1 rfl,
   ((get_graph_data_error_paths cDemo [HttpOutcome.response 200 (some (Json.obj []))]
      "P" "4.16.0").2.1 ⟨200, some (Json.obj [])⟩ rfl [] rfl).1 rfl,
   (get_graph_data_error_paths cDemo [HttpOutcome.response 200 (some (Json.arr [Json.num 1]))]
      "P" "4.16.0").2.2 ⟨200, some (Json.arr [Json.num 1])⟩ rfl (Json.arr [Json.num 1]) rfl rfl⟩

/-- C9 (amended): for a connections response whose JSON body is an
object, `get_patient_id` returns `None` without raising when "data" is
absent, not a list, an empty list, or a list whose first element is an
object lacking a "patientId" key.  (A first element that is not a
container instead escapes with a `TypeError` from the unguarded `in`
check, and a non-object body with an `AttributeError` from `.get`.) -/
theorem get_patient_id_soft_absences (c : Client) (o : List HttpOutcome) :
    ∀ resp, (request c o "GET" connections_url none none).result = Except.ok resp →
    ∀ fs, resp.body = some (Json.obj fs) →
      ((jGet (Json.obj fs) "data" = none → (get_patient_id c o).result = Except.ok Json.null) ∧
       (∀ d, jGet (Json.obj fs) "data" = some d → d.isArr = false →
          (get_patient_id c o).result = Except.ok Json.null) ∧
       (jGet (Json.obj fs) "data" = some (Json.arr []) →
          (get_patient_id c o).result = Except.ok Json.null) ∧
       (∀ g rest, jGet (Json.obj fs) "data" = some (Json.arr (Json.obj g :: rest)) →
          jGet (Json.obj g) "patientId" = none →
          (get_patient_id c o).result = Except.ok Json.null)) := by
  intro resp hreq fs hbody
  refine ⟨?_, ?_, ?_, ?_⟩
  · intro hnone
    obtain ⟨-, hget⟩ := jGet_none_spec fs "data" hnone
    unfold get_patient_id
    dsimp only
    rw [hreq]
    dsimp only
    rw [hbody]
    dsimp only
    rw [hget]
    rfl
  · intro d hd hnotarr
    obtain ⟨-, -, hget⟩ := jGet_some_spec _ _ _ hd
    unfold get_patient_id
    dsimp only
    rw [hreq]
    dsimp only
    rw [hbody]
    dsimp only
    rw [hget]
    dsimp only
    rw [hnotarr]
    simp
  · intro hd
    obtain ⟨-, -, hget⟩ := jGet_some_spec _ _ _ hd
    unfold get_patient_id
    dsimp only
    rw [hreq]
    dsimp only
    rw [hbody]
    dsimp only
    rw [hget]
    rfl
  · intro g rest hd hpid
    obtain ⟨-, -, hget⟩ := jGet_some_spec _ _ _ hd
    obtain ⟨hcont, -⟩ := jGet_none_spec g "patientId" hpid
    unfold get_patient_id
    dsimp only
    rw [hreq]
    dsimp only
    rw [hbody]
    dsimp only
    rw [hget]
    simp [hcont]

/-- C9 counterexample: a connections body whose "data" list starts with
the number 5 — the first element lacks a "patientId" key, yet
`get_patient_id` raises a bare `TypeError` instead of returning `None`. -/
theorem get_patient_id_nonobject_element_typeerror :
    (get_patient_id cDemo
        [HttpOutcome.response 200 (some (Json.obj [("data", Json.arr [Json.num 5])]))]).result
      = Except.error (PyErr.typeError "argument of type is not iterable") ∧
    PyErr.isLibreViewAPIError (PyErr.typeError "argument of type is not iterable") = false :=
  ⟨rfl, rfl⟩

/-- C9 witness: an empty connections list yields `None` without raising. -/
theorem get_patient_id_soft_absences_witness :
    (get_patient_id cDemo
        [HttpOutcome.response 200 (some (Json.obj [("data", Json.arr [])]))]).result
      = Except.ok Json.null :=
  ((get_patient_id_soft_absences cDemo
      [HttpOutcome.response 200 (some (Json.obj [("data", Json.arr [])]))]
      ⟨200, some (Json.obj [("data", Json.arr [])])⟩ rfl
      [("data", Json.arr [])] rfl).2.2.1) rfl

/-- C10: a 200 login response whose JSON body has "data" but no
"authTicket" beneath it makes `login` raise a bare `KeyError`, which is
not a subtype of `LibreViewAPIError`; the same unguarded access happens
for `data.user.id` in `fetch_and_hash_account_id`. -/
theorem login_unguarded_access_raises_bare_keyerror :
    (login cDemo [HttpOutcome.response 200 (some (Json.obj [("data", Json.obj [])]))]).result
      = Except.error (PyErr.keyError "authTicket") ∧
    PyErr.isLibreViewAPIError (PyErr.keyError "authTicket") = false ∧
    (fetch_and_hash_account_id cDemo
        [HttpOutcome.response 200 (some (Json.obj [("data", Json.obj [])]))]).result
      = Except.error (PyErr.keyError "user") ∧
    PyErr.isLibreViewAPIError (PyErr.keyError "user") = false :=
  ⟨rfl, rfl, rfl, rfl⟩
